import Mathlib

/-!
Verification of the aggregator backend service (apps/python-service/main.py).

The development shallowly embeds the two pipelines of the service:
the content extractor (`scrape_url`) and the transcript resolver
(`get_youtube_transcript`, `get_youtube_transcripts_batch`), together with
the video-identifier parser (`extract_video_id`).  External collaborators
(the HTTP client, the markup parser and the transcript provider) are
modelled as explicit inputs, following the capability interface the
specification assigns to them: the HTTP fetch outcome is a value of
`FetchOutcome`, the parsed document is a value of `List Node`, and the
transcript provider is a function from a video identifier to a
`ListingResult`.
-/

/-! ## Video-identifier parser (`extract_video_id`, main.py lines 157-169)

The Python function searches the regular expression
`(?:v=|/v/|youtu.be/|/embed/)([a-zA-Z0-9_-]\x7b11\x7d)` and, failing that,
anchors `^([a-zA-Z0-9_-]\x7b11\x7d)$` on the whole input.  `re.search`
scans start positions left to right and, at each position, tries the
alternatives of the group in order; the embedded group takes exactly the
eleven characters that follow the marker.  The anchored pattern matches
the whole input, where the end anchor of the Python regex engine also
matches immediately before a single trailing newline. -/

/-- Character class `[a-zA-Z0-9_-]` of the video-id regex. -/
def isAllowedChar (c : Char) : Bool :=
  (('a' ≤ c && c ≤ 'z') || ('A' ≤ c && c ≤ 'Z') || ('0' ≤ c && c ≤ '9')
    || c == '_' || c == '-')

/-- The four marker alternatives of the first regex, in the order the
regex engine tries them: `v=`, `/v/`, `youtu.be/`, `/embed/`. -/
def markers : List (List Char) :=
  [['v', '='],
   ['/', 'v', '/'],
   ['y', 'o', 'u', 't', 'u', '.', 'b', 'e', '/'],
   ['/', 'e', 'm', 'b', 'e', 'd', '/']]

/-- Attempt of the first regex at one start position: try each marker
alternative in order; on a marker match, the group must supply exactly
eleven characters of the allowed class (the characters that follow the
marker). -/
def matchAt (s : List Char) : Option (List Char) :=
  markers.findSome? (fun m =>
    if m.isPrefixOf s then
      let chunk := (s.drop m.length).take 11
      if chunk.length = 11 && chunk.all isAllowedChar then some chunk else none
    else none)

/-- `re.search` of the first regex: scan start positions left to right,
return the group of the first position where `matchAt` succeeds. -/
def searchPat1 : List Char → Option (List Char)
  | [] => none
  | c :: rest =>
    match matchAt (c :: rest) with
    | some r => some r
    | none => searchPat1 rest

/-- The anchored second regex `^([a-zA-Z0-9_-]\x7b11\x7d)$`: the whole
input is eleven allowed characters, or eleven allowed characters followed
by a single trailing newline (the end anchor of the Python regex engine
also matches just before a final newline). -/
def pat2Match (s : List Char) : Option (List Char) :=
  if s.length = 11 && s.all isAllowedChar then some s
  else if s.length = 12 && (s.take 11).all isAllowedChar && s.drop 11 = ['\n'] then
    some (s.take 11)
  else none

/-- `extract_video_id` (main.py lines 157-169): try the embedded pattern,
then the anchored pattern; the first match wins; otherwise fail with the
`ValueError` message. -/
def extract_video_id (url : String) : Except String String :=
  match searchPat1 url.data with
  | some r => Except.ok (String.mk r)
  | none =>
    match pat2Match url.data with
    | some r => Except.ok (String.mk r)
    | none => Except.error (("Could not extract video ID from: ") ++ url)

/-- Characters that can appear in an identifier possibly followed by a
trailing newline; no regex marker fits inside such text. -/
def cleanChar (c : Char) : Bool := isAllowedChar c || c == '\n'

/-- The parser exactly as claim C4 words it (claim-side rendering, for
comparison with `extract_video_id`): the second pattern matches only when
the whole input is exactly eleven allowed characters. -/
def claim_extract_video_id (url : String) : Except String String :=
  match searchPat1 url.data with
  | some r => Except.ok (String.mk r)
  | none =>
    if url.data.length = 11 && url.data.all isAllowedChar then Except.ok url
    else Except.error (("Could not extract video ID from: ") ++ url)

/-! ## Document model for the content extractor

The markup parser is an external collaborator; the specification models it
as a tree of elements and text with order-preserving text extraction,
element removal and selector-based query.  A parsed document is a list of
top-level nodes. -/

/-- A DOM node: a text node or an element with a tag and children. -/
inductive Node where
  | text (s : String)
  | element (tag : String) (children : List Node)

/-- Python `str.strip()`: drop leading and trailing whitespace. -/
def pyStrip (s : String) : String :=
  String.mk
    (((s.data.dropWhile Char.isWhitespace).reverse.dropWhile Char.isWhitespace).reverse)

/-- Remove every subtree rooted at an element whose tag is in `bad`
(`soup([...])` + `decompose()`, main.py lines 90-91). -/
def stripNodes (bad : List String) : List Node → List Node
  | [] => []
  | Node.text s :: rest => Node.text s :: stripNodes bad rest
  | Node.element tag cs :: rest =>
    if bad.contains tag then stripNodes bad rest
    else Node.element tag (stripNodes bad cs) :: stripNodes bad rest

/-- The stripped text fragments of a node list in document order: each
text node stripped of surrounding whitespace, empty fragments dropped
(BeautifulSoup `stripped_strings`, backing `get_text(strip=True)`). -/
def strippedTexts : List Node → List String
  | [] => []
  | Node.text s :: rest =>
    (if pyStrip s = ("") then [] else [pyStrip s]) ++ strippedTexts rest
  | Node.element _ cs :: rest => strippedTexts cs ++ strippedTexts rest

/-- The stripped text fragments that lie outside every subtree rooted at a
tag in `bad`, in document order. -/
def goodTexts (bad : List String) : List Node → List String
  | [] => []
  | Node.text s :: rest =>
    (if pyStrip s = ("") then [] else [pyStrip s]) ++ goodTexts bad rest
  | Node.element tag cs :: rest =>
    (if bad.contains tag then [] else goodTexts bad cs) ++ goodTexts bad rest

/-- `true` when no element anywhere in the node list has a tag in `bad`. -/
def noTagIn (bad : List String) : List Node → Bool
  | [] => true
  | Node.text _ :: rest => noTagIn bad rest
  | Node.element tag cs :: rest =>
    !(bad.contains tag) && noTagIn bad cs && noTagIn bad rest

/-- All elements with the given tag, in document order
(`soup.select` for a tag-name selector, main.py line 98). -/
def selectTag (sel : String) : List Node → List Node
  | [] => []
  | Node.text _ :: rest => selectTag sel rest
  | Node.element tag cs :: rest =>
    (if tag = sel then [Node.element tag cs] else [])
      ++ selectTag sel cs ++ selectTag sel rest

/-- First element with the given tag, in document order (`soup.find`). -/
def findTag (t : String) : List Node → Option Node
  | [] => none
  | Node.text _ :: rest => findTag t rest
  | Node.element tag cs :: rest =>
    if tag = t then some (Node.element tag cs)
    else
      match findTag t cs with
      | some n => some n
      | none => findTag t rest

/-! ## Content extractor (`scrape_url`, main.py lines 73-122)

The HTTP fetch is the external boundary: its outcome is an input to the
pipeline.  On success the response body is the parsed document. -/

/-- Tags removed before any text extraction (main.py line 90). -/
def badTags : List String := [("script"), ("style"), ("nav"), ("footer"), ("header")]

/-- Outcome of the HTTP fetch of the requested URL: a non-success status
(`raise_for_status`), any other transport or parse fault (surfaced by its
string form), or a successfully parsed document. -/
inductive FetchOutcome where
  | statusFault (status : Nat)
  | transportFault (msg : String)
  | ok (doc : List Node)

/-- `ScrapeResponse` (main.py lines 35-40). -/
structure ScrapeResponse where
  url : String
  title : Option String := none
  content : String
  success : Bool
  error : Option String := none
  deriving Repr, DecidableEq

/-- Python string slicing `content[:n]`: the first `n` characters. -/
def strTake (s : String) (n : Nat) : String := String.mk (s.data.take n)

/-- `el.get_text(strip=True)`: stripped text fragments of the element,
joined with no separator. -/
def getTextStrip (n : Node) : String := String.join (strippedTexts [n])

/-- `el.get_text(separator="\n", strip=True)`: stripped text fragments of
the element, joined with newline separators. -/
def getTextLines (n : Node) : String :=
  String.intercalate ("\n") (strippedTexts [n])

/-- `soup.title.string`: the text of the first document title element,
when that element holds a single text node. -/
def findTitle (ns : List Node) : Option String :=
  match findTag ("title") ns with
  | some (Node.element _ [Node.text s]) => some s
  | _ => none

/-- `soup.find("main") or soup.find("article") or soup.find("body")`
(main.py line 102): the first present region, in that priority. -/
def fallbackRegion (ns : List Node) : Option Node :=
  (findTag ("main") ns).orElse fun _ =>
    (findTag ("article") ns).orElse fun _ => findTag ("body") ns

/-- `scrape_url` (main.py lines 73-122): on a fetch fault, a failure
response with empty content; on success, prune the bad-tag subtrees,
extract the title, extract the content by selector or by the fallback
region, and truncate to 50,000 characters. -/
def scrape_url (outcome : FetchOutcome) (url : String) (selector : Option String) :
    ScrapeResponse :=
  match outcome with
  | FetchOutcome.statusFault status =>
    { url := url, content := "", success := false,
      error := some (("HTTP error ") ++ toString status) }
  | FetchOutcome.transportFault msg =>
    { url := url, content := "", success := false, error := some msg }
  | FetchOutcome.ok doc =>
    let soup := stripNodes badTags doc
    let title := findTitle soup
    let content :=
      match selector with
      | some sel =>
        String.intercalate ("\n") ((selectTag sel soup).map getTextStrip)
      | none =>
        match fallbackRegion soup with
        | some region => getTextLines region
        | none => ""
    { url := url, title := title, content := strTake content 50000,
      success := true, error := none }

/-! ## Transcript resolver (`get_youtube_transcript`, main.py lines 172-250)

The transcript provider is the external boundary.  Its track listing for a
video identifier is modelled by `ListingResult`; the two lookup
capabilities of the provider (`find_transcript`,
`find_generated_transcript`) are modelled over the listed tracks with the
provider's matching semantics: a lookup walks the requested language codes
in order and matches a track by exact language code, manual tracks taking
precedence within one code for the plain lookup, generated tracks only for
the generated lookup.  Fetching a track's cues may itself fault; the
outcome is carried on the track. -/

deriving instance DecidableEq for Except

/-- One timed cue of a transcript track; only its text matters here. -/
structure Cue where
  text : String
  deriving Repr, DecidableEq

/-- One transcript track of the provider listing: its language code,
whether it is auto-generated, and the outcome of fetching its cues. -/
structure Track where
  language_code : String
  is_generated : Bool
  fetchResult : Except String (List Cue)
  deriving Repr, DecidableEq

/-- Outcome of `YouTubeTranscriptApi.list_transcripts` for an identifier:
the `TranscriptsDisabled` fault, any other provider or network fault
(surfaced by its string form), or the track listing in the provider's
enumeration order. -/
inductive ListingResult where
  | disabled
  | fault (msg : String)
  | ok (tracks : List Track)

/-- Find the first listed track with the given language code and the
given generation flag. -/
def findTrack (tracks : List Track) (generated : Bool) (lang : String) : Option Track :=
  tracks.find? (fun t => t.language_code == lang && t.is_generated == generated)

/-- Provider capability `find_transcript`: walk the requested codes in
order; for each code a manually created track takes precedence over a
generated one. -/
def find_transcript (tracks : List Track) (langs : List String) : Option Track :=
  langs.findSome? (fun lang =>
    (findTrack tracks false lang).orElse fun _ => findTrack tracks true lang)

/-- Provider capability `find_generated_transcript`: walk the requested
codes in order over the generated tracks only. -/
def find_generated_transcript (tracks : List Track) (langs : List String) :
    Option Track :=
  langs.findSome? (fun lang => findTrack tracks true lang)

/-- Success discriminator for a track-fetch outcome. -/
def isOkFetch : Except String (List Cue) → Bool
  | Except.ok _ => true
  | Except.error _ => false

/-- `TranscriptResponse` (main.py lines 48-54). -/
structure TranscriptResponse where
  video_id : String
  title : Option String := none
  transcript : String
  language : String
  success : Bool
  error : Option String := none
  deriving Repr, DecidableEq

/-- The track search of the resolver (main.py lines 181-205): the
preferred search walks the caller's languages one code at a time; on
failure the generated-track search takes the whole preference list and is
recorded under the sentinel `"auto"`; on failure again the first listed
track is taken under its own language code. -/
def selectTrack (tracks : List Track) (languages : List String) :
    Option (Track × String) :=
  match languages.findSome? (fun lang =>
      (find_transcript tracks [lang]).map (fun t => (t, lang))) with
  | some p => some p
  | none =>
    match find_generated_transcript tracks languages with
    | some t => some (t, ("auto"))
    | none =>
      match tracks with
      | [] => none
      | t :: _ => some (t, t.language_code)

/-- `get_youtube_transcript` (main.py lines 172-250).  The provider is a
function from the parsed video identifier to its listing outcome.  A
parse failure (`ValueError`), the `TranscriptsDisabled` fault, any other
listing fault and any cue-fetch fault are caught by the handlers of
main.py lines 227-250, which build the failure response from the raw
request URL; an empty search result yields the non-exceptional
`No transcript available` failure carrying the parsed identifier; on
success the cue texts are joined with single spaces. -/
def get_youtube_transcript (provider : String → ListingResult) (url : String)
    (languages : List String) : TranscriptResponse :=
  match extract_video_id url with
  | Except.error msg =>
    { video_id := url, transcript := "", language := "", success := false,
      error := some msg }
  | Except.ok video_id =>
    match provider video_id with
    | ListingResult.disabled =>
      { video_id := url, transcript := "", language := "", success := false,
        error := some ("Transcripts are disabled for this video") }
    | ListingResult.fault msg =>
      { video_id := url, transcript := "", language := "", success := false,
        error := some msg }
    | ListingResult.ok tracks =>
      match selectTrack tracks languages with
      | none =>
        { video_id := video_id, transcript := "", language := "",
          success := false, error := some ("No transcript available") }
      | some (t, language_used) =>
        match t.fetchResult with
        | Except.error msg =>
          { video_id := url, transcript := "", language := "",
            success := false, error := some msg }
        | Except.ok cues =>
          { video_id := video_id,
            transcript := String.intercalate (" ") (cues.map Cue.text),
            language := language_used, success := true, error := none }

/-- `get_youtube_transcripts_batch` (main.py lines 253-263): one resolver
invocation per URL, results in input order, plus their count. -/
def get_youtube_transcripts_batch (provider : String → ListingResult)
    (urls : List String) (languages : List String) :
    List TranscriptResponse × Nat :=
  let results := urls.map (fun url => get_youtube_transcript provider url languages)
  (results, results.length)

/-! ## Generic helper lemmas -/

/-- `findSome?` over a list on which the function is everywhere `none`. -/
theorem findSome?_eq_none_of {α β : Type} (f : α → Option β) (l : List α)
    (h : ∀ a ∈ l, f a = none) : l.findSome? f = none := by
  induction l with
  | nil => rfl
  | cons a as ih =>
    rw [List.findSome?_cons, h a (List.mem_cons_self a as)]
    exact ih (fun b hb => h b (List.mem_cons_of_mem a hb))

/-- `findSome?` over a singleton list. -/
theorem findSome?_singleton {α β : Type} (f : α → Option β) (a : α) :
    [a].findSome? f = f a := by
  rw [List.findSome?_cons]
  cases hfa : f a <;> simp [hfa]

/-- When success of `f` coincides pointwise with the predicate `p`,
`findSome? f` lands on the witness found by `find? p`. -/
theorem findSome?_eq_of_find? {α β : Type} (p : α → Bool) (f : α → Option β)
    (l : List α) (hpf : ∀ a, (f a).isSome = p a) (x : α)
    (hx : l.find? p = some x) : l.findSome? f = f x := by
  induction l with
  | nil => cases hx
  | cons a as ih =>
    cases hpa : p a with
    | true =>
      rw [List.find?_cons_of_pos _ hpa] at hx
      have hax : a = x := by injection hx
      subst hax
      have hsome : (f a).isSome = true := by rw [hpf a, hpa]
      obtain ⟨b, hb⟩ := Option.isSome_iff_exists.mp hsome
      rw [List.findSome?_cons, hb]
    | false =>
      rw [List.find?_cons_of_neg _ (by simp [hpa])] at hx
      have hfa : f a = none := by
        have h1 := hpf a
        rw [hpa] at h1
        cases hfa2 : f a
        · rfl
        · rw [hfa2] at h1; cases h1
      rw [List.findSome?_cons, hfa]
      exact ih hx

/-- A character of a `==`-prefix occurs in the longer list. -/
theorem isPrefixOf_mem_chars :
    ∀ {m s : List Char} {c : Char}, m.isPrefixOf s = true → c ∈ m → c ∈ s := by
  intro m
  induction m with
  | nil => intro s c _ hc; cases hc
  | cons a as ih =>
    intro s c hm hc
    cases s with
    | nil => cases hm
    | cons b bs =>
      simp only [List.isPrefixOf, Bool.and_eq_true, beq_iff_eq] at hm
      rcases List.mem_cons.mp hc with h | h
      · rw [h, hm.1]; exact List.mem_cons_self b bs
      · exact List.mem_cons_of_mem b (ih hm.2 h)

/-! ## Properties of the video-identifier parser -/

theorem matchAt_eq_none_of_no_marker (s : List Char)
    (h : ∀ m ∈ markers, m.isPrefixOf s = false) : matchAt s = none := by
  apply findSome?_eq_none_of
  intro m hm
  simp [h m hm]

theorem matchAt_clean (s : List Char) (h : s.all cleanChar = true) :
    matchAt s = none := by
  apply matchAt_eq_none_of_no_marker
  intro m hm
  simp only [markers, List.mem_cons, List.not_mem_nil, or_false] at hm
  rcases hm with hm | hm | hm | hm
  · subst hm
    cases hpre : (['v', '='].isPrefixOf s)
    · rfl
    · exact absurd
        (List.all_eq_true.mp h ('=') (isPrefixOf_mem_chars hpre (by decide)))
        (by decide)
  · subst hm
    cases hpre : (['/', 'v', '/'].isPrefixOf s)
    · rfl
    · exact absurd
        (List.all_eq_true.mp h ('/') (isPrefixOf_mem_chars hpre (by decide)))
        (by decide)
  · subst hm
    cases hpre : (['y', 'o', 'u', 't', 'u', '.', 'b', 'e', '/'].isPrefixOf s)
    · rfl
    · exact absurd
        (List.all_eq_true.mp h ('.')
          (isPrefixOf_mem_chars hpre (by decide)))
        (by decide)
  · subst hm
    cases hpre : (['/', 'e', 'm', 'b', 'e', 'd', '/'].isPrefixOf s)
    · rfl
    · exact absurd
        (List.all_eq_true.mp h ('/') (isPrefixOf_mem_chars hpre (by decide)))
        (by decide)

theorem searchPat1_eq_none_clean (s : List Char) (h : s.all cleanChar = true) :
    searchPat1 s = none := by
  induction s with
  | nil => rfl
  | cons c cs ih =>
    have h1 : matchAt (c :: cs) = none := matchAt_clean _ h
    have h2 : cs.all cleanChar = true := by
      rw [List.all_cons, Bool.and_eq_true] at h
      exact h.2
    simp only [searchPat1, h1]
    exact ih h2

theorem matchAt_head_none (c : Char) (s : List Char)
    (h : (c == 'v' || c == '/' || c == 'y') = false) : matchAt (c :: s) = none := by
  simp only [Bool.or_eq_false_iff, beq_eq_false_iff_ne] at h
  have e1 : (('v' : Char) == c) = false := beq_eq_false_iff_ne.mpr (Ne.symm h.1.1)
  have e2 : (('/' : Char) == c) = false := beq_eq_false_iff_ne.mpr (Ne.symm h.1.2)
  have e3 : (('y' : Char) == c) = false := beq_eq_false_iff_ne.mpr (Ne.symm h.2)
  apply matchAt_eq_none_of_no_marker
  intro m hm
  simp only [markers, List.mem_cons, List.not_mem_nil, or_false] at hm
  rcases hm with hm | hm | hm | hm <;> subst hm
  · simp [List.isPrefixOf, e1]
  · simp [List.isPrefixOf, e2]
  · simp [List.isPrefixOf, e3]
  · simp [List.isPrefixOf, e2]

theorem searchPat1_skip (c : Char) (s : List Char)
    (h : (c == 'v' || c == '/' || c == 'y') = false) :
    searchPat1 (c :: s) = searchPat1 s := by
  simp only [searchPat1, matchAt_head_none c s h]

theorem matchAt_slash_none (c : Char) (s : List Char)
    (h : (c == 'v' || c == 'e') = false) : matchAt ('/' :: c :: s) = none := by
  simp only [Bool.or_eq_false_iff, beq_eq_false_iff_ne] at h
  have e1 : (('v' : Char) == c) = false := beq_eq_false_iff_ne.mpr (Ne.symm h.1)
  have e2 : (('e' : Char) == c) = false := beq_eq_false_iff_ne.mpr (Ne.symm h.2)
  apply matchAt_eq_none_of_no_marker
  intro m hm
  simp only [markers, List.mem_cons, List.not_mem_nil, or_false] at hm
  rcases hm with hm | hm | hm | hm <;> subst hm
  · simp [List.isPrefixOf]
  · simp [List.isPrefixOf, e1]
  · simp [List.isPrefixOf]
  · simp [List.isPrefixOf, e2]

theorem searchPat1_skip_slash (c : Char) (s : List Char)
    (h : (c == 'v' || c == 'e') = false) :
    searchPat1 ('/' :: c :: s) = searchPat1 (c :: s) := by
  simp only [searchPat1, matchAt_slash_none c s h]

theorem matchAt_youtub_none (s : List Char) :
    matchAt ('y' :: 'o' :: 'u' :: 't' :: 'u' :: 'b' :: s) = none := by
  apply matchAt_eq_none_of_no_marker
  intro m hm
  simp only [markers, List.mem_cons, List.not_mem_nil, or_false] at hm
  rcases hm with hm | hm | hm | hm <;> subst hm <;> simp [List.isPrefixOf]

theorem searchPat1_skip_youtub (s : List Char) :
    searchPat1 ('y' :: 'o' :: 'u' :: 't' :: 'u' :: 'b' :: s)
      = searchPat1 ('o' :: 'u' :: 't' :: 'u' :: 'b' :: s) := by
  simp only [searchPat1, matchAt_youtub_none s]

theorem matchAt_after_v (s : List Char) (h11 : (s.take 11).length = 11)
    (hall : (s.take 11).all isAllowedChar = true) :
    matchAt ('v' :: '=' :: s) = some (s.take 11) := by
  have hle : 11 ≤ s.length := by
    have h2 := h11
    rw [List.length_take] at h2
    omega
  have hforall : ∀ x ∈ List.take 11 s, isAllowedChar x = true := List.all_eq_true.mp hall
  simp [matchAt, markers, List.findSome?_cons, List.isPrefixOf, hle, hforall]
  rw [if_pos hforall]

theorem matchAt_after_vslash (s : List Char) (h11 : (s.take 11).length = 11)
    (hall : (s.take 11).all isAllowedChar = true) :
    matchAt ('/' :: 'v' :: '/' :: s) = some (s.take 11) := by
  have hle : 11 ≤ s.length := by
    have h2 := h11
    rw [List.length_take] at h2
    omega
  have hforall : ∀ x ∈ List.take 11 s, isAllowedChar x = true := List.all_eq_true.mp hall
  simp [matchAt, markers, List.findSome?_cons, List.isPrefixOf, hle, hforall]
  rw [if_pos hforall]

theorem matchAt_after_youtube (s : List Char) (h11 : (s.take 11).length = 11)
    (hall : (s.take 11).all isAllowedChar = true) :
    matchAt ('y' :: 'o' :: 'u' :: 't' :: 'u' :: '.' :: 'b' :: 'e' :: '/' :: s)
      = some (s.take 11) := by
  have hle : 11 ≤ s.length := by
    have h2 := h11
    rw [List.length_take] at h2
    omega
  have hforall : ∀ x ∈ List.take 11 s, isAllowedChar x = true := List.all_eq_true.mp hall
  simp [matchAt, markers, List.findSome?_cons, List.isPrefixOf, hle, hforall]
  rw [if_pos hforall]

theorem matchAt_after_embed (s : List Char) (h11 : (s.take 11).length = 11)
    (hall : (s.take 11).all isAllowedChar = true) :
    matchAt ('/' :: 'e' :: 'm' :: 'b' :: 'e' :: 'd' :: '/' :: s)
      = some (s.take 11) := by
  have hle : 11 ≤ s.length := by
    have h2 := h11
    rw [List.length_take] at h2
    omega
  have hforall : ∀ x ∈ List.take 11 s, isAllowedChar x = true := List.all_eq_true.mp hall
  simp [matchAt, markers, List.findSome?_cons, List.isPrefixOf, hle, hforall]
  rw [if_pos hforall]

theorem search_watch (id : List Char) (h11 : id.length = 11)
    (hall : id.all isAllowedChar = true) :
    searchPat1 ("https://www.youtube.com/watch?v=".data ++ id) = some id := by
  have htake : id.take 11 = id := by rw [← h11]; exact List.take_length id
  have hlen : (id.take 11).length = 11 := by rw [htake, h11]
  have hall2 : (id.take 11).all isAllowedChar = true := by rw [htake]; exact hall
  have e : "https://www.youtube.com/watch?v=".data ++ id
      = 'h' :: 't' :: 't' :: 'p' :: 's' :: ':' :: '/' :: '/' :: 'w' :: 'w' :: 'w'
        :: '.' :: 'y' :: 'o' :: 'u' :: 't' :: 'u' :: 'b' :: 'e' :: '.' :: 'c'
        :: 'o' :: 'm' :: '/' :: 'w' :: 'a' :: 't' :: 'c' :: 'h' :: '?' :: 'v'
        :: '=' :: id := rfl
  rw [e]
  rw [searchPat1_skip 'h' _ (by decide)]
  rw [searchPat1_skip 't' _ (by decide)]
  rw [searchPat1_skip 't' _ (by decide)]
  rw [searchPat1_skip 'p' _ (by decide)]
  rw [searchPat1_skip 's' _ (by decide)]
  rw [searchPat1_skip ':' _ (by decide)]
  rw [searchPat1_skip_slash '/' _ (by decide)]
  rw [searchPat1_skip_slash 'w' _ (by decide)]
  rw [searchPat1_skip 'w' _ (by decide)]
  rw [searchPat1_skip 'w' _ (by decide)]
  rw [searchPat1_skip 'w' _ (by decide)]
  rw [searchPat1_skip '.' _ (by decide)]
  rw [searchPat1_skip_youtub]
  rw [searchPat1_skip 'o' _ (by decide)]
  rw [searchPat1_skip 'u' _ (by decide)]
  rw [searchPat1_skip 't' _ (by decide)]
  rw [searchPat1_skip 'u' _ (by decide)]
  rw [searchPat1_skip 'b' _ (by decide)]
  rw [searchPat1_skip 'e' _ (by decide)]
  rw [searchPat1_skip '.' _ (by decide)]
  rw [searchPat1_skip 'c' _ (by decide)]
  rw [searchPat1_skip 'o' _ (by decide)]
  rw [searchPat1_skip 'm' _ (by decide)]
  rw [searchPat1_skip_slash 'w' _ (by decide)]
  rw [searchPat1_skip 'w' _ (by decide)]
  rw [searchPat1_skip 'a' _ (by decide)]
  rw [searchPat1_skip 't' _ (by decide)]
  rw [searchPat1_skip 'c' _ (by decide)]
  rw [searchPat1_skip 'h' _ (by decide)]
  rw [searchPat1_skip '?' _ (by decide)]
  simp only [searchPat1, matchAt_after_v id hlen hall2, htake]

theorem search_youtu_be (id : List Char) (h11 : id.length = 11)
    (hall : id.all isAllowedChar = true) :
    searchPat1 ("https://youtu.be/".data ++ id) = some id := by
  have htake : id.take 11 = id := by rw [← h11]; exact List.take_length id
  have hlen : (id.take 11).length = 11 := by rw [htake, h11]
  have hall2 : (id.take 11).all isAllowedChar = true := by rw [htake]; exact hall
  have e : "https://youtu.be/".data ++ id
      = 'h' :: 't' :: 't' :: 'p' :: 's' :: ':' :: '/' :: '/'
        :: 'y' :: 'o' :: 'u' :: 't' :: 'u' :: '.' :: 'b' :: 'e' :: '/' :: id := rfl
  rw [e]
  rw [searchPat1_skip 'h' _ (by decide)]
  rw [searchPat1_skip 't' _ (by decide)]
  rw [searchPat1_skip 't' _ (by decide)]
  rw [searchPat1_skip 'p' _ (by decide)]
  rw [searchPat1_skip 's' _ (by decide)]
  rw [searchPat1_skip ':' _ (by decide)]
  rw [searchPat1_skip_slash '/' _ (by decide)]
  rw [searchPat1_skip_slash 'y' _ (by decide)]
  simp only [searchPat1, matchAt_after_youtube id hlen hall2, htake]

theorem search_embed (id : List Char) (h11 : id.length = 11)
    (hall : id.all isAllowedChar = true) :
    searchPat1 ("https://www.youtube.com/embed/".data ++ id) = some id := by
  have htake : id.take 11 = id := by rw [← h11]; exact List.take_length id
  have hlen : (id.take 11).length = 11 := by rw [htake, h11]
  have hall2 : (id.take 11).all isAllowedChar = true := by rw [htake]; exact hall
  have e : "https://www.youtube.com/embed/".data ++ id
      = 'h' :: 't' :: 't' :: 'p' :: 's' :: ':' :: '/' :: '/' :: 'w' :: 'w' :: 'w'
        :: '.' :: 'y' :: 'o' :: 'u' :: 't' :: 'u' :: 'b' :: 'e' :: '.' :: 'c'
        :: 'o' :: 'm' :: '/' :: 'e' :: 'm' :: 'b' :: 'e' :: 'd' :: '/' :: id := rfl
  rw [e]
  rw [searchPat1_skip 'h' _ (by decide)]
  rw [searchPat1_skip 't' _ (by decide)]
  rw [searchPat1_skip 't' _ (by decide)]
  rw [searchPat1_skip 'p' _ (by decide)]
  rw [searchPat1_skip 's' _ (by decide)]
  rw [searchPat1_skip ':' _ (by decide)]
  rw [searchPat1_skip_slash '/' _ (by decide)]
  rw [searchPat1_skip_slash 'w' _ (by decide)]
  rw [searchPat1_skip 'w' _ (by decide)]
  rw [searchPat1_skip 'w' _ (by decide)]
  rw [searchPat1_skip 'w' _ (by decide)]
  rw [searchPat1_skip '.' _ (by decide)]
  rw [searchPat1_skip_youtub]
  rw [searchPat1_skip 'o' _ (by decide)]
  rw [searchPat1_skip 'u' _ (by decide)]
  rw [searchPat1_skip 't' _ (by decide)]
  rw [searchPat1_skip 'u' _ (by decide)]
  rw [searchPat1_skip 'b' _ (by decide)]
  rw [searchPat1_skip 'e' _ (by decide)]
  rw [searchPat1_skip '.' _ (by decide)]
  rw [searchPat1_skip 'c' _ (by decide)]
  rw [searchPat1_skip 'o' _ (by decide)]
  rw [searchPat1_skip 'm' _ (by decide)]
  simp only [searchPat1, matchAt_after_embed id hlen hall2, htake]

theorem search_vpath (id : List Char) (h11 : id.length = 11)
    (hall : id.all isAllowedChar = true) :
    searchPat1 ("https://www.youtube.com/v/".data ++ id) = some id := by
  have htake : id.take 11 = id := by rw [← h11]; exact List.take_length id
  have hlen : (id.take 11).length = 11 := by rw [htake, h11]
  have hall2 : (id.take 11).all isAllowedChar = true := by rw [htake]; exact hall
  have e : "https://www.youtube.com/v/".data ++ id
      = 'h' :: 't' :: 't' :: 'p' :: 's' :: ':' :: '/' :: '/' :: 'w' :: 'w' :: 'w'
        :: '.' :: 'y' :: 'o' :: 'u' :: 't' :: 'u' :: 'b' :: 'e' :: '.' :: 'c'
        :: 'o' :: 'm' :: '/' :: 'v' :: '/' :: id := rfl
  rw [e]
  rw [searchPat1_skip 'h' _ (by decide)]
  rw [searchPat1_skip 't' _ (by decide)]
  rw [searchPat1_skip 't' _ (by decide)]
  rw [searchPat1_skip 'p' _ (by decide)]
  rw [searchPat1_skip 's' _ (by decide)]
  rw [searchPat1_skip ':' _ (by decide)]
  rw [searchPat1_skip_slash '/' _ (by decide)]
  rw [searchPat1_skip_slash 'w' _ (by decide)]
  rw [searchPat1_skip 'w' _ (by decide)]
  rw [searchPat1_skip 'w' _ (by decide)]
  rw [searchPat1_skip 'w' _ (by decide)]
  rw [searchPat1_skip '.' _ (by decide)]
  rw [searchPat1_skip_youtub]
  rw [searchPat1_skip 'o' _ (by decide)]
  rw [searchPat1_skip 'u' _ (by decide)]
  rw [searchPat1_skip 't' _ (by decide)]
  rw [searchPat1_skip 'u' _ (by decide)]
  rw [searchPat1_skip 'b' _ (by decide)]
  rw [searchPat1_skip 'e' _ (by decide)]
  rw [searchPat1_skip '.' _ (by decide)]
  rw [searchPat1_skip 'c' _ (by decide)]
  rw [searchPat1_skip 'o' _ (by decide)]
  rw [searchPat1_skip 'm' _ (by decide)]
  simp only [searchPat1, matchAt_after_vslash id hlen hall2, htake]

theorem clean_of_allowed (s : List Char) (h : s.all isAllowedChar = true) :
    s.all cleanChar = true := by
  rw [List.all_eq_true] at h ⊢
  intro c hc
  unfold cleanChar
  rw [h c hc]
  rfl

theorem extract_watch (id : String) (h11 : id.data.length = 11)
    (hall : id.data.all isAllowedChar = true) :
    extract_video_id (("https://www.youtube.com/watch?v=") ++ id) = Except.ok id := by
  unfold extract_video_id
  rw [String.data_append, search_watch id.data h11 hall]

theorem extract_youtu_be (id : String) (h11 : id.data.length = 11)
    (hall : id.data.all isAllowedChar = true) :
    extract_video_id (("https://youtu.be/") ++ id) = Except.ok id := by
  unfold extract_video_id
  rw [String.data_append, search_youtu_be id.data h11 hall]

theorem extract_embed (id : String) (h11 : id.data.length = 11)
    (hall : id.data.all isAllowedChar = true) :
    extract_video_id (("https://www.youtube.com/embed/") ++ id) = Except.ok id := by
  unfold extract_video_id
  rw [String.data_append, search_embed id.data h11 hall]

theorem extract_vpath (id : String) (h11 : id.data.length = 11)
    (hall : id.data.all isAllowedChar = true) :
    extract_video_id (("https://www.youtube.com/v/") ++ id) = Except.ok id := by
  unfold extract_video_id
  rw [String.data_append, search_vpath id.data h11 hall]

theorem extract_bare (id : String) (h11 : id.data.length = 11)
    (hall : id.data.all isAllowedChar = true) :
    extract_video_id id = Except.ok id := by
  unfold extract_video_id
  rw [searchPat1_eq_none_clean id.data (clean_of_allowed _ hall)]
  simp only [pat2Match, h11, hall]
  simp

theorem extract_trailing_newline (id : String) (h11 : id.data.length = 11)
    (hall : id.data.all isAllowedChar = true) :
    extract_video_id (id ++ ("\n")) = Except.ok id := by
  unfold extract_video_id
  rw [String.data_append]
  have enl : ("\n" : String).data = ['\n'] := rfl
  rw [enl]
  have hclean : (id.data ++ ['\n']).all cleanChar = true := by
    rw [List.all_append]
    rw [clean_of_allowed _ hall]
    rfl
  rw [searchPat1_eq_none_clean _ hclean]
  have hlen : (id.data ++ ['\n']).length = 12 := by
    rw [List.length_append, h11]
    rfl
  have htk : (id.data ++ ['\n']).take 11 = id.data := by
    rw [← h11]
    exact List.take_left id.data _
  have hdr : (id.data ++ ['\n']).drop 11 = ['\n'] := by
    rw [← h11]
    exact List.drop_left id.data _
  simp only [pat2Match, hlen, htk, hdr, hall]
  simp

/-- C4, counterexample: on the input consisting of eleven identifier
characters followed by a single trailing newline, the implemented parser
succeeds (the regex end anchor matches before a final newline) while the
parser described by the claim, whose second pattern requires the whole
input to be exactly an eleven-character identifier, fails. -/
theorem C4_counterexample :
    extract_video_id ("aaaaaaaaaaa\n") = Except.ok ("aaaaaaaaaaa")
    ∧ claim_extract_video_id ("aaaaaaaaaaa\n")
        = Except.error ("Could not extract video ID from: aaaaaaaaaaa\n") :=
  ⟨rfl, rfl⟩

/-- C4 (amended): the parser tries the embedded-marker pattern first and
the anchored bare pattern second, the first match winning; every valid
eleven-character identifier embedded in any of the four recognized URL
shapes is extracted unchanged, every bare eleven-character identifier is
returned unchanged, and additionally a bare identifier followed by a
single trailing newline is accepted with the newline dropped, because the
end anchor of the second pattern also matches immediately before a final
newline. -/
theorem C4_extract_video_id_amended (id : String) (h11 : id.data.length = 11)
    (hall : id.data.all isAllowedChar = true) :
    extract_video_id (("https://www.youtube.com/watch?v=") ++ id) = Except.ok id
    ∧ extract_video_id (("https://youtu.be/") ++ id) = Except.ok id
    ∧ extract_video_id (("https://www.youtube.com/embed/") ++ id) = Except.ok id
    ∧ extract_video_id (("https://www.youtube.com/v/") ++ id) = Except.ok id
    ∧ extract_video_id id = Except.ok id
    ∧ extract_video_id (id ++ ("\n")) = Except.ok id :=
  ⟨extract_watch id h11 hall, extract_youtu_be id h11 hall,
   extract_embed id h11 hall, extract_vpath id h11 hall,
   extract_bare id h11 hall, extract_trailing_newline id h11 hall⟩

/-- C4 witness: the amended theorem applied to the concrete identifier
`dQw4w9WgXcQ`. -/
theorem C4_extract_video_id_amended_witness :
    extract_video_id ("https://www.youtube.com/watch?v=dQw4w9WgXcQ")
      = Except.ok ("dQw4w9WgXcQ")
    ∧ extract_video_id ("https://youtu.be/dQw4w9WgXcQ") = Except.ok ("dQw4w9WgXcQ")
    ∧ extract_video_id ("dQw4w9WgXcQ") = Except.ok ("dQw4w9WgXcQ") := by
  have h := C4_extract_video_id_amended ("dQw4w9WgXcQ") (by decide) (by decide)
  exact ⟨h.1, h.2.1, h.2.2.2.2.1⟩

/-! ## Properties of the transcript resolver -/

theorem single_pref_isSome_iff (tracks : List Track) (lang : String) :
    (find_transcript tracks [lang]).isSome = true
      ↔ ∃ t, t ∈ tracks ∧ t.language_code = lang := by
  unfold find_transcript
  rw [findSome?_singleton]
  constructor
  · intro h
    cases h1 : findTrack tracks false lang with
    | some t =>
      refine ⟨t, List.mem_of_find?_eq_some h1, ?_⟩
      have h2 := List.find?_some h1
      rw [Bool.and_eq_true, beq_iff_eq, beq_iff_eq] at h2
      exact h2.1
    | none =>
      rw [h1] at h
      cases h2 : findTrack tracks true lang with
      | some t =>
        refine ⟨t, List.mem_of_find?_eq_some h2, ?_⟩
        have h3 := List.find?_some h2
        rw [Bool.and_eq_true, beq_iff_eq, beq_iff_eq] at h3
        exact h3.1
      | none =>
        rw [h2] at h
        simp at h
  · rintro ⟨t, hmem, hcode⟩
    cases h1 : findTrack tracks false lang with
    | some u => rfl
    | none =>
      cases h2 : findTrack tracks true lang with
      | some u => rfl
      | none =>
        exfalso
        unfold findTrack at h1 h2
        cases hg : t.is_generated with
        | false => exact (List.find?_eq_none.mp h1 t hmem) (by simp [hcode, hg])
        | true => exact (List.find?_eq_none.mp h2 t hmem) (by simp [hcode, hg])

theorem single_pref_isSome_eq_any (tracks : List Track) (lang : String) :
    (find_transcript tracks [lang]).isSome
      = tracks.any (fun t => t.language_code == lang) := by
  rw [Bool.eq_iff_iff, single_pref_isSome_iff, List.any_eq_true]
  simp [beq_iff_eq]

theorem find_transcript_single_mem {tracks : List Track} {lang : String} {t : Track}
    (h : find_transcript tracks [lang] = some t) : t ∈ tracks := by
  unfold find_transcript at h
  rw [findSome?_singleton] at h
  cases h1 : findTrack tracks false lang with
  | some u =>
    rw [h1] at h
    have h2 : some u = some t := h
    injection h2 with h3
    rw [← h3]
    exact List.mem_of_find?_eq_some h1
  | none =>
    rw [h1] at h
    have h2 : findTrack tracks true lang = some t := h
    exact List.mem_of_find?_eq_some h2

theorem single_pref_eq_none (tracks : List Track) (lang : String)
    (h : ∀ t ∈ tracks, ¬ t.language_code = lang) :
    find_transcript tracks [lang] = none := by
  cases hf : find_transcript tracks [lang] with
  | none => rfl
  | some t =>
    exfalso
    have hs : (find_transcript tracks [lang]).isSome = true := by rw [hf]; rfl
    obtain ⟨u, hm, hc⟩ := (single_pref_isSome_iff tracks lang).mp hs
    exact h u hm hc

theorem selectTrack_nil (languages : List String) : selectTrack [] languages = none := by
  unfold selectTrack
  have h1 : languages.findSome?
      (fun l => (find_transcript [] [l]).map (fun t => (t, l))) = none :=
    findSome?_eq_none_of _ _ (fun l _ => rfl)
  have h2 : find_generated_transcript [] languages = none :=
    findSome?_eq_none_of _ _ (fun l _ => rfl)
  rw [h1, h2]

/-- C1: the preferred search walks the caller's language list strictly in
order; the first listed language for which any track (manual or
auto-generated) matches is the one resolved, and the response reports
that language code with success.  In particular language-list order
dominates track quality. -/
theorem C1_preferred_language_order (provider : String → ListingResult)
    (url vid lang : String) (languages : List String) (tracks : List Track)
    (hvid : extract_video_id url = Except.ok vid)
    (hlist : provider vid = ListingResult.ok tracks)
    (hfirst : languages.find? (fun l => tracks.any (fun t => t.language_code == l))
        = some lang)
    (hfetch : ∀ t ∈ tracks, isOkFetch t.fetchResult = true) :
    (get_youtube_transcript provider url languages).language = lang
    ∧ (get_youtube_transcript provider url languages).success = true := by
  have hfs : languages.findSome?
      (fun l => (find_transcript tracks [l]).map (fun t => (t, l)))
      = (find_transcript tracks [lang]).map (fun t => (t, lang)) :=
    findSome?_eq_of_find?
      (fun l => tracks.any (fun t => t.language_code == l))
      (fun l => (find_transcript tracks [l]).map (fun t => (t, l)))
      languages
      (fun l => by rw [Option.isSome_map', single_pref_isSome_eq_any])
      lang hfirst
  have hsome : (find_transcript tracks [lang]).isSome = true := by
    rw [single_pref_isSome_eq_any]
    simpa using List.find?_some hfirst
  obtain ⟨t, ht⟩ := Option.isSome_iff_exists.mp hsome
  have hsel : selectTrack tracks languages = some (t, lang) := by
    unfold selectTrack
    rw [hfs, ht]
    rfl
  obtain ⟨cues, hcues⟩ : ∃ cues, t.fetchResult = Except.ok cues := by
    have hok := hfetch t (find_transcript_single_mem ht)
    cases hcc : t.fetchResult with
    | ok cs => exact ⟨cs, rfl⟩
    | error m => rw [hcc] at hok; simp [isOkFetch] at hok
  simp [get_youtube_transcript, hvid, hlist, hsel, hcues]

/-- C1 witness: with languages `["es", "en"]` and a single manual `"en"`
track, resolution reports language `"en"`, not `"auto"`. -/
theorem C1_preferred_language_order_witness :
    (get_youtube_transcript
        (fun _ => ListingResult.ok [⟨("en"), false, Except.ok [⟨("hi")⟩]⟩])
        ("dQw4w9WgXcQ") [("es"), ("en")]).language = ("en")
    ∧ (get_youtube_transcript
        (fun _ => ListingResult.ok [⟨("en"), false, Except.ok [⟨("hi")⟩]⟩])
        ("dQw4w9WgXcQ") [("es"), ("en")]).success = true :=
  C1_preferred_language_order _ ("dQw4w9WgXcQ") ("dQw4w9WgXcQ") ("en")
    [("es"), ("en")] [⟨("en"), false, Except.ok [⟨("hi")⟩]⟩]
    rfl rfl rfl (by decide)

/-- C2: when no listed language matches any track, the generated-track
search over the whole preference list necessarily also fails (a generated
track matching the preference set would already have been matched by the
preferred search, so the `"auto"` outcome described by the specification
cannot fire), and the resolver falls back to the first track in the
provider's enumeration order, reporting that track's own language code
and the cue texts joined by single spaces. -/
theorem C2_auto_and_any_fallback (provider : String → ListingResult)
    (url vid : String) (languages : List String) (tracks : List Track)
    (hvid : extract_video_id url = Except.ok vid)
    (hlist : provider vid = ListingResult.ok tracks)
    (hnone : ∀ l ∈ languages, ∀ t ∈ tracks, ¬ t.language_code = l) :
    find_generated_transcript tracks languages = none
    ∧ (∀ t cues, find_generated_transcript tracks languages = some t →
        t.fetchResult = Except.ok cues →
        get_youtube_transcript provider url languages
          = { video_id := vid,
              transcript := String.intercalate (" ") (cues.map Cue.text),
              language := ("auto"), success := true })
    ∧ (∀ t0 rest cues, tracks = t0 :: rest → t0.fetchResult = Except.ok cues →
        get_youtube_transcript provider url languages
          = { video_id := vid,
              transcript := String.intercalate (" ") (cues.map Cue.text),
              language := t0.language_code, success := true }) := by
  have hgen : find_generated_transcript tracks languages = none := by
    unfold find_generated_transcript
    apply findSome?_eq_none_of
    intro l hl
    unfold findTrack
    rw [List.find?_eq_none]
    intro t ht
    simp [hnone l hl t ht]
  have hpref : languages.findSome?
      (fun l => (find_transcript tracks [l]).map (fun t => (t, l))) = none := by
    apply findSome?_eq_none_of
    intro l hl
    rw [single_pref_eq_none tracks l (fun t ht => hnone l hl t ht)]
    rfl
  refine ⟨hgen, ?_, ?_⟩
  · intro t cues hsome _
    rw [hgen] at hsome
    cases hsome
  · intro t0 rest cues htr hfetch
    have hsel : selectTrack tracks languages = some (t0, t0.language_code) := by
      unfold selectTrack
      rw [hpref, hgen, htr]
    simp [get_youtube_transcript, hvid, hlist, hsel, hfetch]

/-- C2 witness: one generated `"fr"` track and preference list `["es"]`;
the preferred and generated searches fail and the first listed track is
used under its own code. -/
theorem C2_auto_and_any_fallback_witness :
    find_generated_transcript
        [⟨("fr"), true, Except.ok [⟨("bonjour")⟩, ⟨("le monde")⟩]⟩] [("es")] = none
    ∧ get_youtube_transcript
        (fun _ => ListingResult.ok
          [⟨("fr"), true, Except.ok [⟨("bonjour")⟩, ⟨("le monde")⟩]⟩])
        ("dQw4w9WgXcQ") [("es")]
      = { video_id := ("dQw4w9WgXcQ"), transcript := ("bonjour le monde"),
          language := ("fr"), success := true } := by
  have h := C2_auto_and_any_fallback
      (fun _ => ListingResult.ok
        [⟨("fr"), true, Except.ok [⟨("bonjour")⟩, ⟨("le monde")⟩]⟩])
      ("dQw4w9WgXcQ") ("dQw4w9WgXcQ") [("es")]
      [⟨("fr"), true, Except.ok [⟨("bonjour")⟩, ⟨("le monde")⟩]⟩]
      rfl rfl (by decide)
  exact ⟨h.1, h.2.2 _ _ _ rfl rfl⟩

theorem extract_error_msg {url msg : String}
    (h : extract_video_id url = Except.error msg) :
    msg = ("Could not extract video ID from: ") ++ url := by
  unfold extract_video_id at h
  cases h1 : searchPat1 url.data with
  | some r => rw [h1] at h; simp at h
  | none =>
    rw [h1] at h
    cases h2 : pat2Match url.data with
    | some r => rw [h2] at h; simp at h
    | none =>
      rw [h2] at h
      injection h with h3
      exact h3.symm

/-- C5: the failure mapping of the resolver.  A parse failure yields the
parser's message with the raw request URL in the identifier field; the
`TranscriptsDisabled` fault yields its fixed message; any other listing
fault and any cue-fetch fault yield the fault's string form; each case is
a well-formed response, never a propagated fault. -/
theorem C5_failure_mapping (provider : String → ListingResult) (url : String)
    (languages : List String) :
    (∀ msg, extract_video_id url = Except.error msg →
      msg = ("Could not extract video ID from: ") ++ url
      ∧ get_youtube_transcript provider url languages
          = { video_id := url, transcript := "", language := "",
              success := false, error := some msg })
    ∧ (∀ vid, extract_video_id url = Except.ok vid →
        provider vid = ListingResult.disabled →
        get_youtube_transcript provider url languages
          = { video_id := url, transcript := "", language := "", success := false,
              error := some ("Transcripts are disabled for this video") })
    ∧ (∀ vid msg, extract_video_id url = Except.ok vid →
        provider vid = ListingResult.fault msg →
        get_youtube_transcript provider url languages
          = { video_id := url, transcript := "", language := "",
              success := false, error := some msg })
    ∧ (∀ vid tracks t lang msg, extract_video_id url = Except.ok vid →
        provider vid = ListingResult.ok tracks →
        selectTrack tracks languages = some (t, lang) →
        t.fetchResult = Except.error msg →
        get_youtube_transcript provider url languages
          = { video_id := url, transcript := "", language := "",
              success := false, error := some msg }) := by
  refine ⟨?_, ?_, ?_, ?_⟩
  · intro msg h
    exact ⟨extract_error_msg h, by simp [get_youtube_transcript, h]⟩
  · intro vid h1 h2
    simp [get_youtube_transcript, h1, h2]
  · intro vid msg h1 h2
    simp [get_youtube_transcript, h1, h2]
  · intro vid tracks t lang msg h1 h2 h3 h4
    simp [get_youtube_transcript, h1, h2, h3, h4]

/-- C5 witness: the four failure mappings at concrete inputs — an
unparseable URL, a disabled video, a generic listing fault, and a
cue-fetch fault. -/
theorem C5_failure_mapping_witness :
    get_youtube_transcript (fun _ => ListingResult.ok []) ("nope") [("en")]
      = { video_id := ("nope"), transcript := "", language := "", success := false,
          error := some ("Could not extract video ID from: nope") }
    ∧ get_youtube_transcript (fun _ => ListingResult.disabled) ("dQw4w9WgXcQ") [("en")]
      = { video_id := ("dQw4w9WgXcQ"), transcript := "", language := "",
          success := false,
          error := some ("Transcripts are disabled for this video") }
    ∧ get_youtube_transcript (fun _ => ListingResult.fault ("socket timeout"))
        ("dQw4w9WgXcQ") [("en")]
      = { video_id := ("dQw4w9WgXcQ"), transcript := "", language := "",
          success := false, error := some ("socket timeout") }
    ∧ get_youtube_transcript
        (fun _ => ListingResult.ok [⟨("en"), false, Except.error ("bad cues")⟩])
        ("dQw4w9WgXcQ") [("en")]
      = { video_id := ("dQw4w9WgXcQ"), transcript := "", language := "",
          success := false, error := some ("bad cues") } := by
  refine ⟨?_, ?_, ?_, ?_⟩
  · exact ((C5_failure_mapping (fun _ => ListingResult.ok []) ("nope") [("en")]).1
      ("Could not extract video ID from: nope") rfl).2
  · exact (C5_failure_mapping (fun _ => ListingResult.disabled)
      ("dQw4w9WgXcQ") [("en")]).2.1 ("dQw4w9WgXcQ") rfl rfl
  · exact (C5_failure_mapping (fun _ => ListingResult.fault ("socket timeout"))
      ("dQw4w9WgXcQ") [("en")]).2.2.1 ("dQw4w9WgXcQ") ("socket timeout") rfl rfl
  · exact (C5_failure_mapping
      (fun _ => ListingResult.ok [⟨("en"), false, Except.error ("bad cues")⟩])
      ("dQw4w9WgXcQ") [("en")]).2.2.2 ("dQw4w9WgXcQ")
      [⟨("en"), false, Except.error ("bad cues")⟩]
      ⟨("en"), false, Except.error ("bad cues")⟩ ("en") ("bad cues") rfl rfl rfl rfl

/-- C6: a valid identifier whose listing holds zero tracks resolves to a
failure response with error `No transcript available`, empty transcript
text, and the parsed identifier. -/
theorem C6_no_tracks (provider : String → ListingResult) (url vid : String)
    (languages : List String)
    (hvid : extract_video_id url = Except.ok vid)
    (hlist : provider vid = ListingResult.ok []) :
    get_youtube_transcript provider url languages
      = { video_id := vid, transcript := "", language := "", success := false,
          error := some ("No transcript available") } := by
  simp [get_youtube_transcript, hvid, hlist, selectTrack_nil]

/-- C6 witness: the empty listing at a concrete bare identifier. -/
theorem C6_no_tracks_witness :
    get_youtube_transcript (fun _ => ListingResult.ok []) ("dQw4w9WgXcQ") [("en")]
      = { video_id := ("dQw4w9WgXcQ"), transcript := "", language := "",
          success := false, error := some ("No transcript available") } :=
  C6_no_tracks (fun _ => ListingResult.ok []) ("dQw4w9WgXcQ") ("dQw4w9WgXcQ")
    [("en")] rfl rfl

/-- C10: every failure produced by an exception handler — parse failure,
`TranscriptsDisabled`, a generic listing fault, or a cue-fetch fault —
carries the raw request URL in the `video_id` field even when parsing had
already succeeded; only the non-exceptional `No transcript available`
failure and the success response carry the parsed identifier. -/
theorem C10_video_id_on_failure (provider : String → ListingResult) (url : String)
    (languages : List String) :
    (∀ msg, extract_video_id url = Except.error msg →
      (get_youtube_transcript provider url languages).video_id = url)
    ∧ (∀ vid, extract_video_id url = Except.ok vid →
        provider vid = ListingResult.disabled →
        (get_youtube_transcript provider url languages).video_id = url)
    ∧ (∀ vid msg, extract_video_id url = Except.ok vid →
        provider vid = ListingResult.fault msg →
        (get_youtube_transcript provider url languages).video_id = url)
    ∧ (∀ vid tracks t lang msg, extract_video_id url = Except.ok vid →
        provider vid = ListingResult.ok tracks →
        selectTrack tracks languages = some (t, lang) →
        t.fetchResult = Except.error msg →
        (get_youtube_transcript provider url languages).video_id = url)
    ∧ (∀ vid, extract_video_id url = Except.ok vid →
        provider vid = ListingResult.ok [] →
        (get_youtube_transcript provider url languages).video_id = vid)
    ∧ (∀ vid, extract_video_id url = Except.ok vid →
        (get_youtube_transcript provider url languages).success = true →
        (get_youtube_transcript provider url languages).video_id = vid) := by
  refine ⟨?_, ?_, ?_, ?_, ?_, ?_⟩
  · intro msg h
    simp [get_youtube_transcript, h]
  · intro vid h1 h2
    simp [get_youtube_transcript, h1, h2]
  · intro vid msg h1 h2
    simp [get_youtube_transcript, h1, h2]
  · intro vid tracks t lang msg h1 h2 h3 h4
    simp [get_youtube_transcript, h1, h2, h3, h4]
  · intro vid h1 h2
    simp [get_youtube_transcript, h1, h2, selectTrack_nil]
  · intro vid h1 hsucc
    cases hp : provider vid with
    | disabled => simp [get_youtube_transcript, h1, hp] at hsucc
    | fault m => simp [get_youtube_transcript, h1, hp] at hsucc
    | ok tracks =>
      cases hs : selectTrack tracks languages with
      | none => simp [get_youtube_transcript, h1, hp, hs] at hsucc
      | some pr =>
        obtain ⟨t, lang⟩ := pr
        cases hf : t.fetchResult with
        | error m => simp [get_youtube_transcript, h1, hp, hs, hf] at hsucc
        | ok cues => simp [get_youtube_transcript, h1, hp, hs, hf]

/-- C10 witness: a cue-fetch fault after a successful parse of an
embedded URL reports the whole URL, not the parsed identifier. -/
theorem C10_video_id_on_failure_witness :
    (get_youtube_transcript
        (fun _ => ListingResult.ok [⟨("en"), false, Except.error ("boom")⟩])
        ("https://youtu.be/dQw4w9WgXcQ") [("en")]).video_id
      = ("https://youtu.be/dQw4w9WgXcQ") :=
  (C10_video_id_on_failure
      (fun _ => ListingResult.ok [⟨("en"), false, Except.error ("boom")⟩])
      ("https://youtu.be/dQw4w9WgXcQ") [("en")]).2.2.2.1
    ("dQw4w9WgXcQ") [⟨("en"), false, Except.error ("boom")⟩]
    ⟨("en"), false, Except.error ("boom")⟩ ("en") ("boom") rfl rfl rfl rfl

/-- C3: both pipeline entry points are total Lean functions producing one
result per input, and every result is well-formed: a failing result
always carries an error message, so no fault escapes the boundary. -/
theorem C3_total_well_formed (outcome : FetchOutcome) (u1 : String)
    (sel : Option String) (provider : String → ListingResult) (u2 : String)
    (languages : List String) :
    ((scrape_url outcome u1 sel).success
      || (scrape_url outcome u1 sel).error.isSome) = true
    ∧ ((get_youtube_transcript provider u2 languages).success
      || (get_youtube_transcript provider u2 languages).error.isSome) = true := by
  constructor
  · cases outcome <;> rfl
  · cases hx : extract_video_id u2 with
    | error m => simp [get_youtube_transcript, hx]
    | ok vid =>
      cases hp : provider vid with
      | disabled => simp [get_youtube_transcript, hx, hp]
      | fault m => simp [get_youtube_transcript, hx, hp]
      | ok tracks =>
        cases hs : selectTrack tracks languages with
        | none => simp [get_youtube_transcript, hx, hp, hs]
        | some pr =>
          obtain ⟨t, lang⟩ := pr
          cases hf : t.fetchResult with
          | error m => simp [get_youtube_transcript, hx, hp, hs, hf]
          | ok cues => simp [get_youtube_transcript, hx, hp, hs, hf]

/-- C9: the batch endpoint maps the single-item resolver over the input
URLs: the result list has one entry per URL in input order, entry `k` is
exactly the resolver's result for URL `k` (so items are independent), and
the reported total equals the input length. -/
theorem C9_batch_map (provider : String → ListingResult) (urls : List String)
    (languages : List String) :
    (get_youtube_transcripts_batch provider urls languages).2 = urls.length
    ∧ (get_youtube_transcripts_batch provider urls languages).1.length = urls.length
    ∧ ∀ k : Nat, (get_youtube_transcripts_batch provider urls languages).1[k]?
        = (urls[k]?).map (fun u => get_youtube_transcript provider u languages) := by
  refine ⟨by simp [get_youtube_transcripts_batch], by simp [get_youtube_transcripts_batch], ?_⟩
  intro k
  simp [get_youtube_transcripts_batch, List.getElem?_map]

/-! ## Properties of the content extractor -/

theorem strip_removes_bad (bad : List String) (ns : List Node) :
    noTagIn bad (stripNodes bad ns) = true := by
  induction ns using stripNodes.induct bad with
  | case1 => simp [stripNodes, noTagIn]
  | case2 s rest ih =>
    simp only [stripNodes, noTagIn]
    exact ih
  | case3 tag cs rest hmem ih =>
    simp only [stripNodes, hmem, if_true]
    exact ih
  | case4 tag cs rest hmem ih1 ih2 =>
    rw [Bool.not_eq_true] at hmem
    simp only [stripNodes, hmem, Bool.false_eq_true, if_false, noTagIn, ih1, ih2]
    simp [hmem]

theorem strip_texts_eq_good (bad : List String) (ns : List Node) :
    strippedTexts (stripNodes bad ns) = goodTexts bad ns := by
  induction ns using stripNodes.induct bad with
  | case1 => simp [stripNodes, strippedTexts, goodTexts]
  | case2 s rest ih =>
    simp only [stripNodes, strippedTexts, goodTexts, ih]
  | case3 tag cs rest hmem ih =>
    simp only [stripNodes, hmem, if_true, goodTexts, ih]
    simp
  | case4 tag cs rest hmem ih1 ih2 =>
    rw [Bool.not_eq_true] at hmem
    simp only [stripNodes, hmem, Bool.false_eq_true, if_false, strippedTexts,
      goodTexts, ih1, ih2]

/-- C7: the extractor prunes every subtree rooted at a `script`, `style`,
`nav`, `footer` or `header` element before any text extraction — the
pruned document contains no such element, and its text fragments are
exactly the fragments of the original document lying outside those
subtrees; with a selector the content is the stripped text of the
matching elements of the pruned document joined by newlines in document
order, and without one it is the newline-separated text of the first
present region among `main`, `article`, `body`, both under the 50,000
character cap. -/
theorem C7_prune_then_extract (doc : List Node) (url : String) (sel : String) :
    noTagIn badTags (stripNodes badTags doc) = true
    ∧ strippedTexts (stripNodes badTags doc) = goodTexts badTags doc
    ∧ (scrape_url (FetchOutcome.ok doc) url (some sel)).content
        = strTake (String.intercalate ("\n")
            ((selectTag sel (stripNodes badTags doc)).map getTextStrip)) 50000
    ∧ (scrape_url (FetchOutcome.ok doc) url none).content
        = strTake
            (match fallbackRegion (stripNodes badTags doc) with
             | some region => getTextLines region
             | none => "") 50000 :=
  ⟨strip_removes_bad badTags doc, strip_texts_eq_good badTags doc, rfl, rfl⟩

theorem strTake_length_le (s : String) (n : Nat) : (strTake s n).length ≤ n := by
  show (s.data.take n).length ≤ n
  rw [List.length_take]
  omega

/-- C8: every extractor response has at most 50,000 characters of
content (successful content is truncated to the first 50,000 characters),
and every failing response carries empty content together with an error
message. -/
theorem C8_content_cap (outcome : FetchOutcome) (url : String)
    (sel : Option String) :
    (scrape_url outcome url sel).content.length ≤ 50000
    ∧ ((scrape_url outcome url sel).success = false →
        (scrape_url outcome url sel).content = ""
        ∧ (scrape_url outcome url sel).error.isSome = true) := by
  cases outcome with
  | statusFault status =>
    exact ⟨(by decide : ("" : String).length ≤ 50000), fun _ => ⟨rfl, rfl⟩⟩
  | transportFault msg =>
    exact ⟨(by decide : ("" : String).length ≤ 50000), fun _ => ⟨rfl, rfl⟩⟩
  | ok doc =>
    refine ⟨strTake_length_le _ _, fun h => ?_⟩
    have h2 : (true : Bool) = false := h
    exact Bool.noConfusion h2

/-- C8 witness: a transport fault yields empty content with an error
message, within the cap. -/
theorem C8_content_cap_witness :
    (scrape_url (FetchOutcome.transportFault ("boom")) ("http://example.com")
        none).content = ""
    ∧ (scrape_url (FetchOutcome.transportFault ("boom")) ("http://example.com")
        none).error.isSome = true :=
  (C8_content_cap (FetchOutcome.transportFault ("boom")) ("http://example.com")
    none).2 rfl
